import Mathlib

/-!
Verification of the sense360-flash serial/flashing services.

Shallow embedding of:
  * `ProductionSerialService` (client/src/services/production-serial.ts):
    the chunked firmware write loop and the flash progress event stream;
  * `SerialService` (client/src/services/serial.ts): the flash progress
    event stream, the serial-monitor line classifier and the streaming
    text decoder usage;
  * `RobustSerialService` (the robust serial service module): connection
    state, development mode, flash/erase sessions, monitor handling,
    disconnect, and its per-read text decoder usage.

Machine numbers are modelled as `Nat` (all quantities involved are
non-negative and far below 2^53, where JavaScript arithmetic is exact).
Progress events are the arguments of the `onFlashProgress` callback, in
emission order; log events are the arguments of `onMessage`.
-/

/-- The `stage` field of the `FlashingState` objects passed to
`onFlashProgress` (client/src/types: connecting, erasing, writing,
verifying, complete, error). -/
inductive Stage where
  | connecting
  | erasing
  | writing
  | verifying
  | complete
  | error
  deriving DecidableEq, Repr

/-- One `FlashingState` progress update `{isFlashing, progress, stage}` as
passed to `onFlashProgress` (the `message` string is not modelled). -/
structure FlashEvent where
  isFlashing : Bool
  progress : Nat
  stage : Stage
  deriving DecidableEq, Repr

/-- The `type` of a `TerminalMessage` log event: info, warning, error or
success. -/
inductive Severity where
  | error
  | warning
  | success
  | info
  deriving DecidableEq, Repr

/-- JavaScript `Math.round (num / den)` for non-negative integers `num`,
`den` (round half up): `⌊num/den + 1/2⌋ = ⌊(2*num + den) / (2*den)⌋`.
All call sites guard `den > 0` (the loops that use it are empty when the
chunk count is zero). -/
def jsRound (num den : Nat) : Nat :=
  (2 * num + den) / (2 * den)

/-- `pat` is a leading run of `s` (character-by-character comparison). -/
def charsLead : List Char → List Char → Bool
  | [], _ => true
  | _ :: _, [] => false
  | p :: ps, c :: cs => p == c && charsLead ps cs

/-- `String.prototype.includes`: `pat` occurs contiguously in `s`. -/
def charsContain (pat : List Char) : List Char → Bool
  | [] => charsLead pat []
  | c :: rest => charsLead pat (c :: rest) || charsContain pat rest

/-- `s.includes(pat)` on strings. -/
def containsStr (s pat : String) : Bool :=
  charsContain pat.toList s.toList

namespace TextDecoder

/-- State of a WHATWG `TextDecoder` (UTF-8, `{stream: true}`) between two
`decode` calls: how many continuation bytes are still needed, the partial
code point, and the admissible range of the next continuation byte. -/
structure DecState where
  needed : Nat
  codepoint : Nat
  lower : Nat
  upper : Nat
  deriving DecidableEq, Repr

/-- A freshly constructed `new TextDecoder()`. -/
def initState : DecState :=
  { needed := 0, codepoint := 0, lower := 0x80, upper := 0xBF }

/-- WHATWG UTF-8 decode of one byte in the start state (no continuation
pending). Output code points; malformed bytes yield U+FFFD. -/
def decStepStart (b : Nat) : DecState × List Nat :=
  if b ≤ 0x7F then (initState, [b])
  else if b < 0xC2 then (initState, [0xFFFD])
  else if b ≤ 0xDF then
    ({ needed := 1, codepoint := b - 0xC0, lower := 0x80, upper := 0xBF }, [])
  else if b = 0xE0 then
    ({ needed := 2, codepoint := 0, lower := 0xA0, upper := 0xBF }, [])
  else if b = 0xED then
    ({ needed := 2, codepoint := 0xD, lower := 0x80, upper := 0x9F }, [])
  else if b ≤ 0xEF then
    ({ needed := 2, codepoint := b - 0xE0, lower := 0x80, upper := 0xBF }, [])
  else if b = 0xF0 then
    ({ needed := 3, codepoint := 0, lower := 0x90, upper := 0xBF }, [])
  else if b ≤ 0xF3 then
    ({ needed := 3, codepoint := b - 0xF0, lower := 0x80, upper := 0xBF }, [])
  else if b = 0xF4 then
    ({ needed := 3, codepoint := 4, lower := 0x80, upper := 0x8F }, [])
  else (initState, [0xFFFD])

/-- WHATWG UTF-8 decode of one byte: a valid continuation byte extends the
pending code point; an invalid one emits U+FFFD and is reprocessed as the
start of a new sequence. -/
def decStep (s : DecState) (b : Nat) : DecState × List Nat :=
  if s.needed = 0 then decStepStart b
  else if s.lower ≤ b ∧ b ≤ s.upper then
    let cp := s.codepoint * 64 + (b - 0x80)
    if s.needed = 1 then (initState, [cp])
    else ({ needed := s.needed - 1, codepoint := cp, lower := 0x80, upper := 0xBF }, [])
  else
    let r := decStepStart b
    (r.1, 0xFFFD :: r.2)

/-- `decoder.decode(chunk, {stream: true})`: decode a whole chunk from a
given state, returning the state after the chunk and the code points
decoded from it. A trailing incomplete sequence stays in the state. -/
def decodeChunk (s : DecState) (bs : List Nat) : DecState × List Nat :=
  bs.foldl (fun acc b =>
    let r := decStep acc.1 b
    (r.1, acc.2 ++ r.2)) (s, [])

end TextDecoder

namespace ProductionSerialService

/-- `const chunkSize = 4096` in `ProductionSerialService.flashFirmware`. -/
def chunkSize : Nat := 4096

/-- `const totalChunks = Math.ceil(firmwareSize / chunkSize)`. -/
def totalChunks (firmwareSize : Nat) : Nat :=
  (firmwareSize + chunkSize - 1) / chunkSize

/-- The `(start, end)` byte range of each `loader.writeFlash(start,
firmwareData.slice(start, end))` call made by
`ProductionSerialService.flashFirmware`:
`start = i * chunkSize`, `end = Math.min(start + chunkSize, firmwareSize)`
for `i = 0 .. totalChunks - 1`. -/
def writeCalls (firmwareSize : Nat) : List (Nat × Nat) :=
  (List.range (totalChunks firmwareSize)).map fun i =>
    (i * chunkSize, min (i * chunkSize + chunkSize) firmwareSize)

/-- The `onFlashProgress` events of a successful real-path
`ProductionSerialService.flashFirmware` run: connecting 5, erasing 15,
writing 30, one writing event per chunk with
`progress = 30 + Math.round((i / totalChunks) * 50)`, verifying 85,
complete 95, then the final complete 100. -/
def flashFirmwareEvents (firmwareSize : Nat) : List FlashEvent :=
  [⟨true, 5, .connecting⟩, ⟨true, 15, .erasing⟩, ⟨true, 30, .writing⟩]
    ++ ((List.range (totalChunks firmwareSize)).map fun i =>
      ⟨true, 30 + jsRound (i * 50) (totalChunks firmwareSize), .writing⟩)
    ++ [⟨true, 85, .verifying⟩, ⟨true, 95, .complete⟩, ⟨false, 100, .complete⟩]

end ProductionSerialService

namespace SerialService

/-- Number of iterations of the write loop in
`SerialService.writeFirmwareData`: `for (i = 0; i < totalChunks; i += 50)`,
i.e. `⌈totalChunks / 50⌉` iterations with `i = 50 * j`. -/
def writeLoopCount (totalChunks : Nat) : Nat :=
  (totalChunks + 49) / 50

/-- The `onFlashProgress` events of `SerialService.writeFirmwareData`:
one writing event at progress 30, then for each loop iteration `i = 50*j`
a writing event at `30 + Math.round((i / totalChunks) * 50)`. -/
def writeFirmwareDataEvents (totalChunks : Nat) : List FlashEvent :=
  ⟨true, 30, .writing⟩ ::
    ((List.range (writeLoopCount totalChunks)).map fun j =>
      ⟨true, 30 + jsRound (50 * j * 50) totalChunks, .writing⟩)

/-- The `onFlashProgress` events of a successful real-path
`SerialService.flashFirmware` run (`totalChunks = ⌈byteLength / 4096⌉`):
the orchestrating method emits 5/20/40/80/95 around its helpers, and the
helpers `eraseFlashMemory`, `writeFirmwareData`, `verifyFlash` and
`resetDevice` each emit their own events (10, 30 and the loop, 85, 95),
followed by the final complete 100. -/
def flashFirmwareEvents (totalChunks : Nat) : List FlashEvent :=
  [⟨true, 5, .connecting⟩, ⟨true, 20, .erasing⟩, ⟨true, 10, .erasing⟩,
   ⟨true, 40, .writing⟩]
    ++ writeFirmwareDataEvents totalChunks
    ++ [⟨true, 80, .verifying⟩, ⟨true, 85, .verifying⟩, ⟨true, 95, .complete⟩,
        ⟨true, 95, .complete⟩, ⟨false, 100, .complete⟩]

/-- The line classifier of `SerialService.startRealSerialMonitoring`:
`trimmedLine.includes('ERROR') || trimmedLine.includes('FAIL')` → error;
else `includes('WARNING') || includes('WARN')` → warning; else
`includes('SUCCESS') || includes('OK') || includes('READY')` → success;
else info. -/
def classifyLine (line : String) : Severity :=
  if containsStr line "ERROR" || containsStr line "FAIL" then .error
  else if containsStr line "WARNING" || containsStr line "WARN" then .warning
  else if containsStr line "SUCCESS" || containsStr line "OK" || containsStr line "READY" then
    .success
  else .info

/-- The monitor loop of `SerialService.startRealSerialMonitoring` creates
one `TextDecoder` before the read loop and calls
`textDecoder.decode(value, {stream: true})` on every chunk, so the decoder
state persists across `read()` results. `decodeReads` is the concatenated
decoder output over a list of read chunks. -/
def decodeReads (reads : List (List Nat)) : List Nat :=
  (reads.foldl (fun acc chunk =>
    let r := TextDecoder.decodeChunk acc.1 chunk
    (r.1, acc.2 ++ r.2)) (TextDecoder.initState, [])).2

end SerialService

namespace RobustSerialService

/-- The mutable fields of `RobustSerialService` relevant to connection and
session behaviour: `isDevelopmentMode`, whether `this.port`, `this.writer`
and `this.reader` are non-null, and `isMonitoring`. -/
structure State where
  isDevelopmentMode : Bool
  portConnected : Bool
  writerSet : Bool
  readerSet : Bool
  isMonitoring : Bool
  deriving DecidableEq, Repr

/-- The `RobustSerialService` constructor: development mode iff the Web
Serial API is unavailable (`!('serial' in navigator)`); all handles null,
monitoring off. -/
def mkService (serialAvailable : Bool) : State :=
  { isDevelopmentMode := !serialAvailable, portConnected := false,
    writerSet := false, readerSet := false, isMonitoring := false }

/-- `RobustSerialService.isConnected()`:
`this.port !== null || this.isDevelopmentMode`. -/
def isConnected (s : State) : Bool :=
  s.portConnected || s.isDevelopmentMode

/-- `const chunkSize = 1024` in `writeFirmwareToFlash`. -/
def writeChunkSize : Nat := 1024

/-- `Math.ceil(firmwareData.byteLength / chunkSize)` in
`writeFirmwareToFlash`. -/
def writeTotalChunks (byteLength : Nat) : Nat :=
  (byteLength + writeChunkSize - 1) / writeChunkSize

/-- The `onFlashProgress` events of
`RobustSerialService.writeFirmwareToFlash`: per chunk `i`, a writing event
at `30 + Math.round((i / totalChunks) * 55)`. -/
def writeFirmwareToFlashEvents (byteLength : Nat) : List FlashEvent :=
  (List.range (writeTotalChunks byteLength)).map fun i =>
    ⟨true, 30 + jsRound (i * 55) (writeTotalChunks byteLength), .writing⟩

/-- The `onFlashProgress` events of a successful real-path
`RobustSerialService.flashFirmware` run: connecting 5, erasing 15,
writing 30, the per-chunk writing events, verifying 85, complete 95, and
the final complete 100. -/
def flashFirmwareRealEvents (byteLength : Nat) : List FlashEvent :=
  [⟨true, 5, .connecting⟩, ⟨true, 15, .erasing⟩, ⟨true, 30, .writing⟩]
    ++ writeFirmwareToFlashEvents byteLength
    ++ [⟨true, 85, .verifying⟩, ⟨true, 95, .complete⟩, ⟨false, 100, .complete⟩]

/-- The `onFlashProgress` events of
`RobustSerialService.flashFirmwareDevelopmentMode`: the five scripted
steps (connecting 5, erasing 15, writing 30, verifying 85, complete 95 —
the complete step is emitted with `isFlashing: false` since
`step.stage !== 'complete'` is false there), with the inner
`for (i = 30; i < 85; i += 10)` writing loop after the writing step, and
the final complete 100. -/
def flashFirmwareDevEvents : List FlashEvent :=
  [⟨true, 5, .connecting⟩, ⟨true, 15, .erasing⟩, ⟨true, 30, .writing⟩,
   ⟨true, 30, .writing⟩, ⟨true, 40, .writing⟩, ⟨true, 50, .writing⟩,
   ⟨true, 60, .writing⟩, ⟨true, 70, .writing⟩, ⟨true, 80, .writing⟩,
   ⟨true, 85, .verifying⟩, ⟨false, 95, .complete⟩, ⟨false, 100, .complete⟩]

/-- Equality of `Except` results is decidable (needed to evaluate session
outcomes on concrete inputs). -/
instance instDecEqExcept {ε α : Type} [DecidableEq ε] [DecidableEq α] :
    DecidableEq (Except ε α)
  | .error e, .error f => decidable_of_iff (e = f) (by simp)
  | .error _, .ok _ => isFalse (by simp)
  | .ok _, .error _ => isFalse (by simp)
  | .ok a, .ok b => decidable_of_iff (a = b) (by simp)

/-- The observable run of one `flashFirmware` / `eraseFlash` call:
the progress events emitted, the protocol bytes written to the transport
(none in this codebase: `enterBootloaderMode`, `eraseFlashRegion`,
`writeFirmwareToFlash` and `resetDevice` only log and delay — the comments
read "Real implementation would ..."), the delay of a
`setTimeout(() => this.startSerialMonitoring(), delay)` scheduled at the
end if any, whether `isMonitoring` is set when the call returns (always
false: `stopSerialMonitoring` runs at entry and a restart only happens
later inside the timeout), and the method's outcome (`Except.error msg`
models `throw new Error(msg)` propagating to the caller). -/
structure SessionRun where
  events : List FlashEvent
  transportWrites : List Nat
  restartDelayMs : Option Nat
  monitoringAfter : Bool
  result : Except String Unit
  deriving DecidableEq, Repr

/-- `RobustSerialService.flashFirmware(firmwareData)`:
`stopSerialMonitoring()`; development mode takes the simulated path and
schedules `startSerialMonitoring` after 2000 ms; otherwise a null port
throws `Error('Device not connected')` (the catch block emits the error
event and re-throws, with no monitor restart); otherwise the real path
runs and schedules `startSerialMonitoring` after 3000 ms. -/
def flashFirmware (s : State) (byteLength : Nat) : SessionRun :=
  if s.isDevelopmentMode then
    { events := flashFirmwareDevEvents, transportWrites := [],
      restartDelayMs := some 2000, monitoringAfter := false,
      result := .ok () }
  else if !s.portConnected then
    { events := [⟨false, 0, .error⟩], transportWrites := [],
      restartDelayMs := none, monitoringAfter := false,
      result := .error "Device not connected" }
  else
    { events := flashFirmwareRealEvents byteLength, transportWrites := [],
      restartDelayMs := some 3000, monitoringAfter := false,
      result := .ok () }

/-- `RobustSerialService.eraseFlash()`: `stopSerialMonitoring()`; the
erasing 10 event is emitted before any connection check; the development
path succeeds, a null port throws `Error('Device not connected')` (error
event, re-throw), the real path succeeds with the complete 100 event.
No path restarts the serial monitor. -/
def eraseFlash (s : State) : SessionRun :=
  if s.isDevelopmentMode then
    { events := [⟨true, 10, .erasing⟩, ⟨false, 100, .complete⟩],
      transportWrites := [], restartDelayMs := none,
      monitoringAfter := false, result := .ok () }
  else if !s.portConnected then
    { events := [⟨true, 10, .erasing⟩, ⟨false, 0, .error⟩],
      transportWrites := [], restartDelayMs := none,
      monitoringAfter := false, result := .error "Device not connected" }
  else
    { events := [⟨true, 10, .erasing⟩, ⟨false, 100, .complete⟩],
      transportWrites := [], restartDelayMs := none,
      monitoringAfter := false, result := .ok () }

/-- Which awaited operations inside `RobustSerialService.disconnect`'s try
block reject: `this.writer.close()`, `this.reader.cancel()`,
`this.port.close()`. -/
structure DisconnectEnv where
  writerCloseFails : Bool
  readerCancelFails : Bool
  portCloseFails : Bool
  deriving DecidableEq, Repr

/-- The try block of `RobustSerialService.disconnect`:
`stopSerialMonitoring()`; close the writer if set, cancel the reader if
set, close the port if set and not in development mode, null the port.
Returns the state reached and `some msg` if an operation threw there
(later statements are skipped). -/
def disconnectTryBlock (s : State) (env : DisconnectEnv) : State × Option String :=
  let s1 : State := { s with isMonitoring := false }
  if s1.writerSet && env.writerCloseFails then
    (s1, some "writer close failed")
  else
    let s2 : State := { s1 with writerSet := false }
    if s2.readerSet && env.readerCancelFails then
      (s2, some "reader cancel failed")
    else
      let s3 : State := { s2 with readerSet := false }
      if s3.portConnected && !s3.isDevelopmentMode && env.portCloseFails then
        (s3, some "port close failed")
      else
        ({ s3 with portConnected := false }, none)

/-- `RobustSerialService.disconnect()`: the whole body is wrapped in
try/catch whose catch only logs `Disconnect error: ...`; the method's
result type still allows an exception (`Except.error`), but any error of
the try block is converted into a normal return with an error log
(the returned `Bool`). -/
def disconnect (s : State) (env : DisconnectEnv) : Except String (State × Bool) :=
  match disconnectTryBlock s env with
  | (s', none) => .ok (s', false)
  | (s', some _) => .ok (s', true)

/-- The monitor loop of `RobustSerialService.startRealSerialMonitoring`
constructs `new TextDecoder()` inside the read loop, once per chunk, and
calls `decoder.decode(value, {stream: true})` on it: no decoder state
survives from one `read()` to the next. `decodeReads` is the concatenated
output of those per-chunk decoders. -/
def decodeReads (reads : List (List Nat)) : List Nat :=
  (reads.map fun chunk => (TextDecoder.decodeChunk TextDecoder.initState chunk).2).flatten

/-- `RobustSerialService.startRealSerialMonitoring` logs every non-empty
trimmed line with `this.logMessage(line.trim(), 'info')`: the severity is
the constant info, independent of the line's content. -/
def monitorLineType (_line : String) : Severity := .info

end RobustSerialService

/-- Collapse consecutive duplicates: the shape of a stage sequence
(each maximal run of one stage contributes one entry). -/
def collapse : List Stage → List Stage
  | [] => []
  | [a] => [a]
  | a :: b :: rest => if a = b then collapse (b :: rest) else a :: collapse (b :: rest)

/-- The stage components of an event trace. -/
def stagesOf (es : List FlashEvent) : List Stage :=
  es.map FlashEvent.stage

namespace SerialService

/-- The `onFlashProgress` events of `SerialService.simulateDetailedFlashing`,
the development-mode flash path taken when `mockConnected` is set:
connecting 0, erasing 10, writing 30, then the sampled write loop
`for (i = 0; i < chunks; i += Math.ceil(chunks / 8))` with
`chunks = Math.ceil(byteLength / 4096)` and
`progress = 30 + Math.round((i / chunks) * 50)`, verifying 85 and
complete 95. The method emits no further progress update after the 95
event (it only logs and restarts monitoring), so this stream ends at
progress 95 — there is no final 100 event on this path. -/
def simulateDetailedFlashingEvents (byteLength : Nat) : List FlashEvent :=
  let chunks := (byteLength + 4095) / 4096
  let step := (chunks + 7) / 8
  [⟨true, 0, .connecting⟩, ⟨true, 10, .erasing⟩, ⟨true, 30, .writing⟩]
    ++ ((List.range ((chunks + step - 1) / step)).map fun j =>
      ⟨true, 30 + jsRound (j * step * 50) chunks, .writing⟩)
    ++ [⟨true, 85, .verifying⟩, ⟨true, 95, .complete⟩]

end SerialService

/-! ## Helper lemmas -/

/-- Telescoping sum of consecutive differences of a step-monotone `g` over
`List.range`. -/
theorem sum_range_consecutive_differences (g : Nat → Nat)
    (mono : ∀ i, g i ≤ g (i + 1)) (k : Nat) :
    ((List.range k).map fun i => g (i + 1) - g i).sum = g k - g 0 := by
  induction k with
  | zero => simp
  | succ k ih =>
    have hmono : Monotone g := monotone_nat_of_le_succ mono
    have h0k : g 0 ≤ g k := hmono (Nat.zero_le k)
    have hkk := mono k
    rw [List.range_succ, List.map_append, List.sum_append, ih]
    simp
    omega

/-- Accumulator form of `TextDecoder.decodeChunk`: folding from `(s, o)`
prepends `o` to the output of folding from `(s, [])`. -/
theorem TextDecoder.decodeChunk_acc (bs : List Nat) :
    ∀ (s : TextDecoder.DecState) (o : List Nat),
      bs.foldl (fun acc b =>
          let r := TextDecoder.decStep acc.1 b
          (r.1, acc.2 ++ r.2)) (s, o)
        = ((TextDecoder.decodeChunk s bs).1, o ++ (TextDecoder.decodeChunk s bs).2) := by
  induction bs with
  | nil => intro s o; simp [TextDecoder.decodeChunk]
  | cons b bs ih =>
    intro s o
    simp only [TextDecoder.decodeChunk, List.foldl_cons]
    rw [ih, ih]
    simp

/-- Collapsing a run of `writing` stages: the replicated block merges into
the leading `writing`. -/
theorem collapse_cons_replicate (k : Nat) (rest : List Stage) :
    collapse (Stage.writing :: (List.replicate k Stage.writing ++ rest))
      = collapse (Stage.writing :: rest) := by
  induction k with
  | zero => simp
  | succ k ih =>
    rw [List.replicate_succ, List.cons_append, collapse]
    simpa using ih

/-! ## C1 -/

/-- C1: for every firmware image of length `N > 0` flashed by
`ProductionSerialService.flashFirmware` with the fixed chunk size 4096,
the write calls partition `[0, N)` exactly — exactly `⌈N/4096⌉` calls, the
first starting at 0, each chunk starting where the previous ended, every
chunk non-empty, the last ending at `N`, and the total bytes written
equal to `N`; in particular a 256000-byte image produces exactly 63 write
calls and the final progress event is `{stage: complete, progress: 100}`. -/
theorem C1_write_calls_partition (n : Nat) (hn : 0 < n) :
    (ProductionSerialService.writeCalls n).length = ProductionSerialService.totalChunks n ∧
    (ProductionSerialService.writeCalls n).head? = some (0, min ProductionSerialService.chunkSize n) ∧
    List.Chain' (fun a b => a.2 = b.1) (ProductionSerialService.writeCalls n) ∧
    (∀ p ∈ ProductionSerialService.writeCalls n, p.1 < p.2) ∧
    ((ProductionSerialService.writeCalls n).getLast?).map Prod.snd = some n ∧
    ((ProductionSerialService.writeCalls n).map fun p => p.2 - p.1).sum = n ∧
    (ProductionSerialService.writeCalls 256000).length = 63 ∧
    (ProductionSerialService.flashFirmwareEvents 256000).getLast?
      = some ⟨false, 100, Stage.complete⟩ := by
  have htc : ProductionSerialService.totalChunks n = (n + 4095) / 4096 := by
    simp [ProductionSerialService.totalChunks, ProductionSerialService.chunkSize]
  have htcpos : 0 < ProductionSerialService.totalChunks n := by rw [htc]; omega
  refine ⟨?_, ?_, ?_, ?_, ?_, ?_, ?_, ?_⟩
  · simp [ProductionSerialService.writeCalls]
  · rw [List.head?_eq_getElem?, ProductionSerialService.writeCalls, List.getElem?_map,
      List.getElem?_range htcpos]
    simp [ProductionSerialService.chunkSize]
  · rw [ProductionSerialService.writeCalls, List.chain'_map]
    obtain ⟨k, hk⟩ := Nat.exists_eq_succ_of_ne_zero (Nat.pos_iff_ne_zero.mp htcpos)
    rw [hk, List.chain'_range_succ]
    intro m hm
    have hm1 : m + 1 < (n + 4095) / 4096 := by rw [← htc, hk]; omega
    simp only [ProductionSerialService.chunkSize]
    omega
  · intro p hp
    rw [ProductionSerialService.writeCalls, List.mem_map] at hp
    obtain ⟨i, hi, rfl⟩ := hp
    rw [List.mem_range, htc] at hi
    simp only [ProductionSerialService.chunkSize]
    omega
  · obtain ⟨k, hk⟩ := Nat.exists_eq_succ_of_ne_zero (Nat.pos_iff_ne_zero.mp htcpos)
    have hkn : k + 1 = (n + 4095) / 4096 := by rw [← htc, hk]
    rw [ProductionSerialService.writeCalls, hk, List.range_succ, List.map_append]
    simp only [List.map_cons, List.map_nil, List.getLast?_concat]
    simp only [ProductionSerialService.chunkSize, Option.map_some']
    congr 1
    omega
  · have hmono : ∀ i, min (i * 4096) n ≤ min ((i + 1) * 4096) n := by
      intro i; omega
    have hcongr : ((List.range (ProductionSerialService.totalChunks n)).map fun i =>
        min (i * ProductionSerialService.chunkSize + ProductionSerialService.chunkSize) n
          - i * ProductionSerialService.chunkSize)
        = (List.range (ProductionSerialService.totalChunks n)).map fun i =>
            min ((i + 1) * 4096) n - min (i * 4096) n := by
      refine List.map_congr_left ?_
      intro i hi
      rw [List.mem_range, htc] at hi
      simp only [ProductionSerialService.chunkSize]
      omega
    rw [ProductionSerialService.writeCalls, List.map_map]
    have hcomp : ((fun p : Nat × Nat => p.2 - p.1) ∘ fun i =>
        (i * ProductionSerialService.chunkSize,
          min (i * ProductionSerialService.chunkSize + ProductionSerialService.chunkSize) n))
        = fun i =>
            min (i * ProductionSerialService.chunkSize + ProductionSerialService.chunkSize) n
              - i * ProductionSerialService.chunkSize := rfl
    rw [hcomp, hcongr, sum_range_consecutive_differences _ hmono]
    rw [htc]
    omega
  · simp [ProductionSerialService.writeCalls, ProductionSerialService.totalChunks,
      ProductionSerialService.chunkSize]
  · decide

/-- C1 witness: the partition property instantiated at the concrete
256000-byte image of the spec's scenario. -/
theorem C1_write_calls_partition_witness :
    0 < 256000 ∧
    ((ProductionSerialService.writeCalls 256000).length = ProductionSerialService.totalChunks 256000 ∧
    (ProductionSerialService.writeCalls 256000).head? = some (0, min ProductionSerialService.chunkSize 256000) ∧
    List.Chain' (fun a b => a.2 = b.1) (ProductionSerialService.writeCalls 256000) ∧
    (∀ p ∈ ProductionSerialService.writeCalls 256000, p.1 < p.2) ∧
    ((ProductionSerialService.writeCalls 256000).getLast?).map Prod.snd = some 256000 ∧
    ((ProductionSerialService.writeCalls 256000).map fun p => p.2 - p.1).sum = 256000 ∧
    (ProductionSerialService.writeCalls 256000).length = 63 ∧
    (ProductionSerialService.flashFirmwareEvents 256000).getLast?
      = some ⟨false, 100, Stage.complete⟩) :=
  ⟨by decide, C1_write_calls_partition 256000 (by decide)⟩

/-! ## C2 -/

/-- C2 counterexample: in the successful real-path
`SerialService.flashFirmware` run for a 63-chunk image the emitted
progress sequence is `[5, 20, 10, 40, 30, 30, 70, 80, 85, 95, 95, 100]`:
the method emits 20 (erasing) and its helper `eraseFlashMemory` then
emits 10, so the progress stream is not monotonic non-decreasing. -/
theorem C2_flash_progress_not_monotone :
    (SerialService.flashFirmwareEvents 63).map FlashEvent.progress
        = [5, 20, 10, 40, 30, 30, 70, 80, 85, 95, 95, 100] ∧
    ¬ List.Chain' (fun a b : Nat => a ≤ b)
      ((SerialService.flashFirmwareEvents 63).map FlashEvent.progress) := by
  have h : (SerialService.flashFirmwareEvents 63).map FlashEvent.progress
      = [5, 20, 10, 40, 30, 30, 70, 80, 85, 95, 95, 100] := by decide
  refine ⟨h, ?_⟩
  rw [h]
  intro hc
  rw [List.chain'_cons, List.chain'_cons] at hc
  omega

/-- The sampled write loop of `SerialService.simulateDetailedFlashing`
never pushes progress past 80: for every iteration `j` of
`for (i = 0; i < chunks; i += step)` with `step = ⌈chunks / 8⌉`,
`Math.round((j * step / chunks) * 50) ≤ 50`. -/
theorem sim_loop_round_le (c j : Nat)
    (hj : j < (c + (c + 7) / 8 - 1) / ((c + 7) / 8)) :
    jsRound (j * ((c + 7) / 8) * 50) c ≤ 50 := by
  rcases Nat.eq_zero_or_pos c with hc | hc
  · subst hc
    omega
  · have hs : 0 < (c + 7) / 8 := by omega
    set s := (c + 7) / 8 with hsdef
    have h1 : (j + 1) * s ≤ ((c + s - 1) / s) * s := Nat.mul_le_mul_right s hj
    have h2 : ((c + s - 1) / s) * s ≤ c + s - 1 := Nat.div_mul_le_self _ _
    have h3 : j * s < c := by
      have h12 := h1.trans h2
      rw [add_mul, one_mul] at h12
      omega
    have h6 : (2 * (j * s * 50) + c) / (2 * c) < 51 := by
      rw [Nat.div_lt_iff_lt_mul (by omega : 0 < 2 * c)]
      omega
    unfold jsRound
    omega

/-- C2 (amended): progress is not monotonic non-decreasing within a
`SerialService.flashFirmware` session (see the counterexample), and a
successful flash session does not always end at progress 100 either:
`SerialService.simulateDetailedFlashing` — the development-mode flash
path — ends its progress stream at `{progress: 95, stage: complete}` and
never emits any progress above 95. The paths that do end at exactly
`{progress: 100, stage: complete}` are the real-path
`SerialService.flashFirmware` (any chunk count), both paths of
`RobustSerialService.flashFirmware`, and the successful
`RobustSerialService.eraseFlash`, whose stream `[10, 100]` is moreover
monotonic. -/
theorem C2_terminal_progress_by_path :
    (∀ totalChunks : Nat,
      (SerialService.flashFirmwareEvents totalChunks).getLast?
        = some ⟨false, 100, Stage.complete⟩) ∧
    (∀ byteLength : Nat,
      (RobustSerialService.flashFirmwareRealEvents byteLength).getLast?
        = some ⟨false, 100, Stage.complete⟩) ∧
    RobustSerialService.flashFirmwareDevEvents.getLast?
      = some ⟨false, 100, Stage.complete⟩ ∧
    (∀ byteLength : Nat,
      (SerialService.simulateDetailedFlashingEvents byteLength).getLast?
        = some ⟨true, 95, Stage.complete⟩) ∧
    (∀ byteLength : Nat,
      ∀ e ∈ SerialService.simulateDetailedFlashingEvents byteLength, e.progress ≤ 95) ∧
    ((RobustSerialService.eraseFlash ⟨false, true, true, true, true⟩).result
      = Except.ok () ∧
    List.Chain' (fun a b : Nat => a ≤ b)
      ((RobustSerialService.eraseFlash ⟨false, true, true, true, true⟩).events.map
        FlashEvent.progress) ∧
    ((RobustSerialService.eraseFlash ⟨false, true, true, true, true⟩).events.map
        FlashEvent.progress).getLast? = some 100) := by
  refine ⟨?_, ?_, by decide, ?_, ?_, rfl, ?_, by decide⟩
  · intro t
    simp only [SerialService.flashFirmwareEvents, List.cons_append, List.nil_append]
    rw [← List.cons_append, ← List.cons_append, ← List.cons_append, ← List.cons_append,
      List.getLast?_append]
    simp
  · intro n
    simp only [RobustSerialService.flashFirmwareRealEvents, List.cons_append, List.nil_append]
    rw [← List.cons_append, ← List.cons_append, ← List.cons_append, List.getLast?_append]
    simp
  · intro n
    simp only [SerialService.simulateDetailedFlashingEvents, List.cons_append, List.nil_append]
    rw [← List.cons_append, ← List.cons_append, ← List.cons_append, List.getLast?_append]
    simp
  · intro n e he
    simp only [SerialService.simulateDetailedFlashingEvents, List.mem_append, List.mem_cons,
      List.mem_map, List.mem_range, List.not_mem_nil, or_false] at he
    rcases he with ((rfl | rfl | rfl) | ⟨j, hj, rfl⟩) | (rfl | rfl)
    · decide
    · decide
    · decide
    · have := sim_loop_round_le ((n + 4095) / 4096) j hj
      simp only [FlashEvent.progress]
      omega
    · decide
    · decide
  · have h : (RobustSerialService.eraseFlash ⟨false, true, true, true, true⟩).events.map
        FlashEvent.progress = [10, 100] := by decide
    rw [h]
    refine List.chain'_cons.mpr ⟨by omega, ?_⟩
    exact List.chain'_singleton 100

/-! ## C3 -/

/-- C3 counterexample: with a session active (development-mode or real
connected state reached mid-flash — port set, monitoring stopped), a
second `flashFirmware` or `eraseFlash` call does not fail with
`SessionBusyError`: it returns successfully, starting a second
overlapping session. -/
theorem C3_second_call_not_busy :
    (RobustSerialService.flashFirmware ⟨false, true, true, true, false⟩ 1024).result
      = Except.ok () ∧
    (RobustSerialService.eraseFlash ⟨false, true, true, true, false⟩).result
      = Except.ok () ∧
    (RobustSerialService.flashFirmware (RobustSerialService.mkService false) 1024).result
      = Except.ok () := by
  refine ⟨rfl, rfl, rfl⟩

/-- C3 (amended): `RobustSerialService` has no session-busy guard at all:
in every state, `flashFirmware` and `eraseFlash` either run to success or
throw only `Error('Device not connected')` — no call on any state (in
particular none made while a session is active) fails with a
`SessionBusyError`. -/
theorem C3_no_session_busy_guard :
    ∀ (s : RobustSerialService.State) (byteLength : Nat),
      ((RobustSerialService.flashFirmware s byteLength).result = Except.ok () ∨
        (RobustSerialService.flashFirmware s byteLength).result
          = Except.error "Device not connected") ∧
      ((RobustSerialService.eraseFlash s).result = Except.ok () ∨
        (RobustSerialService.eraseFlash s).result
          = Except.error "Device not connected") := by
  intro s n
  constructor
  · unfold RobustSerialService.flashFirmware
    split
    · exact Or.inl rfl
    · split
      · exact Or.inr rfl
      · exact Or.inl rfl
  · unfold RobustSerialService.eraseFlash
    split
    · exact Or.inl rfl
    · split
      · exact Or.inr rfl
      · exact Or.inl rfl

/-! ## C4 -/

/-- C4 counterexample: when the service is constructed with the Web Serial
API unavailable (development mode) and `connect()` has never been called
(no port handle), `eraseFlash` does not fail with a connection error — it
succeeds on the simulated path. -/
theorem C4_erase_without_connect_dev_succeeds :
    (RobustSerialService.mkService false).portConnected = false ∧
    (RobustSerialService.eraseFlash (RobustSerialService.mkService false)).result
      = Except.ok () ∧
    (RobustSerialService.eraseFlash (RobustSerialService.mkService false)).events.getLast?
      = some ⟨false, 100, Stage.complete⟩ := by
  refine ⟨rfl, rfl, rfl⟩

/-- C4 (amended): outside development mode, `eraseFlash` on a state with
no prior successful `connect()` (null port) fails with the code's
connection error `Error('Device not connected')`, and no protocol bytes
are written to the transport before (or after) the failure. -/
theorem C4_erase_without_connect_fails (s : RobustSerialService.State)
    (hdev : s.isDevelopmentMode = false) (hport : s.portConnected = false) :
    (RobustSerialService.eraseFlash s).result = Except.error "Device not connected" ∧
    (RobustSerialService.eraseFlash s).transportWrites = [] := by
  unfold RobustSerialService.eraseFlash
  rw [hdev, hport]
  exact ⟨rfl, rfl⟩

/-- C4 witness: the amended statement at the freshly constructed
real-mode service (Web Serial available, `connect()` never called). -/
theorem C4_erase_without_connect_fails_witness :
    (RobustSerialService.mkService true).isDevelopmentMode = false ∧
    (RobustSerialService.mkService true).portConnected = false ∧
    ((RobustSerialService.eraseFlash (RobustSerialService.mkService true)).result
        = Except.error "Device not connected" ∧
      (RobustSerialService.eraseFlash (RobustSerialService.mkService true)).transportWrites
        = []) :=
  ⟨rfl, rfl, C4_erase_without_connect_fails (RobustSerialService.mkService true) rfl rfl⟩

/-! ## C5 -/

/-- C5 counterexample: a successful `RobustSerialService.eraseFlash`
session reaches the terminal complete event, yet the serial monitor —
stopped at session start — is never restarted: no
`startSerialMonitoring` timeout is scheduled and monitoring is off when
the call returns. -/
theorem C5_erase_leaves_monitor_stopped :
    (RobustSerialService.eraseFlash ⟨false, true, true, true, true⟩).result
      = Except.ok () ∧
    (RobustSerialService.eraseFlash ⟨false, true, true, true, true⟩).events.getLast?
      = some ⟨false, 100, Stage.complete⟩ ∧
    (RobustSerialService.eraseFlash ⟨false, true, true, true, true⟩).restartDelayMs
      = none ∧
    (RobustSerialService.eraseFlash ⟨false, true, true, true, true⟩).monitoringAfter
      = false := by
  refine ⟨rfl, rfl, rfl, rfl⟩

/-- C5 (amended): only a successful `flashFirmware` restarts the monitor
(after a 3000 ms settle delay on the real path, 2000 ms on the simulated
path); a failing `flashFirmware` (e.g. no port) schedules no restart, and
`eraseFlash` never restarts the monitor in any state, success or
failure. -/
theorem C5_monitor_restart_only_after_flash_success :
    (∀ byteLength : Nat,
      (RobustSerialService.flashFirmware ⟨false, true, true, true, true⟩ byteLength).restartDelayMs
        = some 3000) ∧
    (∀ byteLength : Nat,
      (RobustSerialService.flashFirmware (RobustSerialService.mkService false) byteLength).restartDelayMs
        = some 2000) ∧
    (∀ byteLength : Nat,
      (RobustSerialService.flashFirmware (RobustSerialService.mkService true) byteLength).result
          = Except.error "Device not connected" ∧
        (RobustSerialService.flashFirmware (RobustSerialService.mkService true) byteLength).restartDelayMs
          = none) ∧
    (∀ s : RobustSerialService.State,
      (RobustSerialService.eraseFlash s).restartDelayMs = none) := by
  refine ⟨fun n => rfl, fun n => rfl, fun n => ⟨rfl, rfl⟩, ?_⟩
  intro s
  unfold RobustSerialService.eraseFlash
  split
  · rfl
  · split
    · rfl
    · rfl

/-! ## C6 -/

/-- Streaming decode is compositional: decoding `c1 ++ c2` from any
decoder state equals decoding `c1`, then decoding `c2` from the reached
state, concatenating the outputs. -/
theorem TextDecoder.decodeChunk_append (s : TextDecoder.DecState) (c1 c2 : List Nat) :
    TextDecoder.decodeChunk s (c1 ++ c2)
      = ((TextDecoder.decodeChunk (TextDecoder.decodeChunk s c1).1 c2).1,
         (TextDecoder.decodeChunk s c1).2
           ++ (TextDecoder.decodeChunk (TextDecoder.decodeChunk s c1).1 c2).2) := by
  have key := TextDecoder.decodeChunk_acc c2 (TextDecoder.decodeChunk s c1).1
    (TextDecoder.decodeChunk s c1).2
  have h2 : TextDecoder.decodeChunk s (c1 ++ c2)
      = c2.foldl (fun acc b =>
          let r := TextDecoder.decStep acc.1 b
          (r.1, acc.2 ++ r.2)) (TextDecoder.decodeChunk s c1) := by
    simp only [TextDecoder.decodeChunk, List.foldl_append]
  rw [h2]
  exact key

/-- C6 (amended): `SerialService.startRealSerialMonitoring` keeps one
`TextDecoder` across `read()` results with `{stream: true}`, so a byte
sequence split at any boundary across two consecutive reads decodes to
exactly the decoding of the undivided sequence (partial multi-byte
sequences are carried over). The same does not hold for
`RobustSerialService`, which constructs a fresh decoder per read (see the
counterexample). -/
theorem C6_streaming_decode_split_safe :
    (∀ (s : TextDecoder.DecState) (c1 c2 : List Nat),
      TextDecoder.decodeChunk s (c1 ++ c2)
        = ((TextDecoder.decodeChunk (TextDecoder.decodeChunk s c1).1 c2).1,
           (TextDecoder.decodeChunk s c1).2
             ++ (TextDecoder.decodeChunk (TextDecoder.decodeChunk s c1).1 c2).2)) ∧
    (∀ c1 c2 : List Nat,
      SerialService.decodeReads [c1, c2] = SerialService.decodeReads [c1 ++ c2]) := by
  refine ⟨TextDecoder.decodeChunk_append, ?_⟩
  intro c1 c2
  simp only [SerialService.decodeReads, List.foldl_cons, List.foldl_nil,
    TextDecoder.decodeChunk_append]
  simp

/-- C6 counterexample: the two-byte UTF-8 encoding `C3 A9` of é split
across two reads: `RobustSerialService`'s per-read decoder drops the
pending `C3` and decodes the orphaned `A9` to U+FFFD, whereas the
undivided read (and `SerialService`'s persistent decoder) decodes to
U+00E9 — the split decode differs from the undivided decode. -/
theorem C6_robust_split_decode_corrupts :
    RobustSerialService.decodeReads [[0xC3], [0xA9]] = [0xFFFD] ∧
    RobustSerialService.decodeReads [[0xC3, 0xA9]] = [0xE9] ∧
    SerialService.decodeReads [[0xC3], [0xA9]] = [0xE9] ∧
    RobustSerialService.decodeReads [[0xC3], [0xA9]]
      ≠ RobustSerialService.decodeReads [[0xC3, 0xA9]] := by
  refine ⟨rfl, rfl, rfl, by decide⟩

/-! ## C7 -/

/-- C7 counterexample: the line `OK` contains neither `ERROR` nor `WARN`,
yet `SerialService`'s classifier yields success, not info; and
`RobustSerialService`'s monitor does not classify at all — it logs
`ERROR: foo` with info severity, not error. -/
theorem C7_classifier_counterexample :
    SerialService.classifyLine "OK" = Severity.success ∧
    containsStr "OK" "ERROR" = false ∧
    containsStr "OK" "WARN" = false ∧
    Severity.success ≠ Severity.info ∧
    RobustSerialService.monitorLineType "ERROR: foo" = Severity.info := by
  refine ⟨rfl, rfl, rfl, by decide, rfl⟩

/-- C7 (amended): `SerialService`'s monitor classifies a trimmed line by
content with this priority: `ERROR`/`FAIL` → error, else
`WARNING`/`WARN` → warning, else `SUCCESS`/`OK`/`READY` → success, else
info; in particular `ERROR: foo` → error and `normal line` → info.
`RobustSerialService`'s monitor logs every line with info severity. -/
theorem C7_line_classifier :
    (∀ line : String, SerialService.classifyLine line = Severity.error ↔
      (containsStr line "ERROR" || containsStr line "FAIL") = true) ∧
    (∀ line : String, SerialService.classifyLine line = Severity.warning ↔
      ((containsStr line "ERROR" || containsStr line "FAIL") = false ∧
        (containsStr line "WARNING" || containsStr line "WARN") = true)) ∧
    (∀ line : String, SerialService.classifyLine line = Severity.success ↔
      ((containsStr line "ERROR" || containsStr line "FAIL") = false ∧
        (containsStr line "WARNING" || containsStr line "WARN") = false ∧
        (containsStr line "SUCCESS" || containsStr line "OK" || containsStr line "READY")
          = true)) ∧
    (∀ line : String, SerialService.classifyLine line = Severity.info ↔
      ((containsStr line "ERROR" || containsStr line "FAIL") = false ∧
        (containsStr line "WARNING" || containsStr line "WARN") = false ∧
        (containsStr line "SUCCESS" || containsStr line "OK" || containsStr line "READY")
          = false)) ∧
    SerialService.classifyLine "ERROR: foo" = Severity.error ∧
    SerialService.classifyLine "normal line" = Severity.info ∧
    (∀ line : String, RobustSerialService.monitorLineType line = Severity.info) := by
  refine ⟨?_, ?_, ?_, ?_, rfl, rfl, fun line => rfl⟩ <;>
    · intro line
      unfold SerialService.classifyLine
      cases hE : (containsStr line "ERROR" || containsStr line "FAIL") <;>
        cases hW : (containsStr line "WARNING" || containsStr line "WARN") <;>
          cases hS : (containsStr line "SUCCESS" || containsStr line "OK"
              || containsStr line "READY") <;>
            simp [hE, hW, hS]

/-! ## C8 -/

/-- C8: for every firmware image of length > 0 the development-mode
(simulated) flash of `RobustSerialService` emits exactly the same stage
shape — connecting, erasing, writing, verifying, complete — as a
successful real-transport flash: collapsing consecutive duplicate stages,
both traces are `[connecting, erasing, writing, verifying, complete]`. -/
theorem C8_simulated_real_same_stage_shape (byteLength : Nat) (_hn : 0 < byteLength) :
    collapse (stagesOf RobustSerialService.flashFirmwareDevEvents)
        = [Stage.connecting, Stage.erasing, Stage.writing, Stage.verifying, Stage.complete] ∧
    collapse (stagesOf (RobustSerialService.flashFirmwareRealEvents byteLength))
        = [Stage.connecting, Stage.erasing, Stage.writing, Stage.verifying, Stage.complete] ∧
    collapse (stagesOf RobustSerialService.flashFirmwareDevEvents)
        = collapse (stagesOf (RobustSerialService.flashFirmwareRealEvents byteLength)) := by
  have hstep : ∀ (x y : Stage) (l : List Stage), x ≠ y →
      collapse (x :: y :: l) = x :: collapse (y :: l) := by
    intro x y l hxy
    rw [collapse, if_neg hxy]
  have hstages : stagesOf (RobustSerialService.flashFirmwareRealEvents byteLength)
      = Stage.connecting :: Stage.erasing :: Stage.writing ::
        (List.replicate (RobustSerialService.writeTotalChunks byteLength) Stage.writing
          ++ [Stage.verifying, Stage.complete, Stage.complete]) := by
    simp only [stagesOf, RobustSerialService.flashFirmwareRealEvents,
      RobustSerialService.writeFirmwareToFlashEvents, List.map_append, List.map_map,
      List.map_cons, List.map_nil, List.cons_append, List.nil_append]
    rw [show (FlashEvent.stage ∘ fun i =>
        (⟨true, 30 + jsRound (i * 55) (RobustSerialService.writeTotalChunks byteLength),
          Stage.writing⟩ : FlashEvent)) = fun _ => Stage.writing from rfl]
    rw [List.map_const', List.length_range]
  have hreal : collapse (stagesOf (RobustSerialService.flashFirmwareRealEvents byteLength))
      = [Stage.connecting, Stage.erasing, Stage.writing, Stage.verifying, Stage.complete] := by
    rw [hstages, hstep _ _ _ (by decide), hstep _ _ _ (by decide),
      collapse_cons_replicate]
    decide
  refine ⟨by decide, hreal, ?_⟩
  rw [hreal]
  decide

/-- C8 witness: the stage-shape equality at a concrete 1024-byte image. -/
theorem C8_simulated_real_same_stage_shape_witness :
    0 < 1024 ∧
    (collapse (stagesOf RobustSerialService.flashFirmwareDevEvents)
        = [Stage.connecting, Stage.erasing, Stage.writing, Stage.verifying, Stage.complete] ∧
    collapse (stagesOf (RobustSerialService.flashFirmwareRealEvents 1024))
        = [Stage.connecting, Stage.erasing, Stage.writing, Stage.verifying, Stage.complete] ∧
    collapse (stagesOf RobustSerialService.flashFirmwareDevEvents)
        = collapse (stagesOf (RobustSerialService.flashFirmwareRealEvents 1024))) :=
  ⟨by decide, C8_simulated_real_same_stage_shape 1024 (by decide)⟩

/-! ## C9 -/

/-- C9: `RobustSerialService.disconnect` never raises: for every internal
state and whatever combination of the writer close, reader cancel and
port close operations rejecting, the call completes normally (the error
is only logged); yet the try block itself can fail, e.g. when the writer
is set and its close rejects — the catch is what makes the method
total. -/
theorem C9_disconnect_never_raises :
    (∀ (s : RobustSerialService.State) (env : RobustSerialService.DisconnectEnv),
      (RobustSerialService.disconnect s env).isOk = true) ∧
    (RobustSerialService.disconnectTryBlock ⟨false, true, true, true, true⟩
        ⟨true, false, false⟩).2 = some "writer close failed" := by
  refine ⟨?_, rfl⟩
  intro s env
  rcases h : RobustSerialService.disconnectTryBlock s env with ⟨s', msg⟩
  cases msg <;> simp [RobustSerialService.disconnect, h, Except.isOk, Except.toBool]

/-! ## C10 -/

/-- C10: when the Web Serial API is unavailable at construction, the
`RobustSerialService` constructor enables development mode and
`isConnected()` returns true from construction onward, although no port
handle exists and `connect()` was never called; `flashFirmware` and
`eraseFlash` then run the simulated path successfully without a prior
`connect()`. -/
theorem C10_dev_mode_connected_from_construction :
    (RobustSerialService.mkService false).isDevelopmentMode = true ∧
    (RobustSerialService.mkService false).portConnected = false ∧
    RobustSerialService.isConnected (RobustSerialService.mkService false) = true ∧
    (∀ byteLength : Nat,
      (RobustSerialService.flashFirmware (RobustSerialService.mkService false) byteLength).result
          = Except.ok () ∧
        (RobustSerialService.flashFirmware (RobustSerialService.mkService false) byteLength).events
          = RobustSerialService.flashFirmwareDevEvents) ∧
    (RobustSerialService.eraseFlash (RobustSerialService.mkService false)).result
      = Except.ok () := by
  exact ⟨rfl, rfl, rfl, fun n => ⟨rfl, rfl⟩, rfl⟩
